import Mathlib

/-!
Shallow embedding of the DocMistral converter (src/docmistral.py) and its
MCP front-end (src/python/mcp_server.py), with theorems settling the
behavioural claims about classification, page reassembly, batch walking,
error handling, temporary-file lifecycle and CLI exit codes.

External collaborators (the Mistral client, the operating system's
filesystem and the Python standard library's base64 codec) are modelled as
explicit oracle parameters of type `Except String _` or `Bool`; a Python
exception is an `Except.error`, and Python `try/except` blocks become
pattern matches on those values. Side effects (dispatched OCR requests,
temporary-file lifecycle, directory creation and file writes) are made
explicit as returned traces or threaded state.
-/

namespace DocMistral

/-- A page object of the remote OCR service's response: a zero-based index
and a Markdown fragment (spec section 3, `PageResult`). -/
structure Page where
  index : Nat
  markdown : String
deriving Repr, DecidableEq

/-- The remote OCR service's response: an ordered sequence of pages, kept
in the order the service returned them. -/
structure OcrResponse where
  pages : List Page
deriving Repr, DecidableEq

/-- The shape of an OCR request dispatched by
`convert_with_mistral_document_ai`: either a document-shaped request
(`type: document_url` with a MIME type and base64 payload, docmistral.py
lines 168-175) or an image-shaped request (`type: image_base64`, lines
191-197). -/
inductive OcrRequest where
  | documentUrl (mimeType : String) (base64Doc : String)
  | imageBase64 (base64Img : String)
deriving Repr, DecidableEq

/-- A choice of a chat completion response; only the message content is
read by the code (`response.choices[0].message.content`). -/
structure ChatResponse where
  choices : List String
deriving Repr, DecidableEq

/-- The external Mistral client handle. `ocrProcess` models
`mistral_client.ocr.process`: for a given request it either returns a
response or raises (an `Except.error`). -/
structure Client where
  ocrProcess : OcrRequest → Except String OcrResponse

/-- The state of a `MistralDocumentProcessor`: its `mistral_client`
attribute, `none` when no client handle is held (the state tested by the
guard at docmistral.py line 143). -/
structure Processor where
  mistral_client : Option Client

/-- Document extensions accepted by the OCR API (docmistral.py line 150). -/
def document_formats : List String := [".pdf", ".pptx", ".docx"]

/-- Image extensions accepted by the OCR API (docmistral.py line 151). -/
def image_formats : List String := [".png", ".jpg", ".jpeg", ".gif", ".bmp", ".avif"]

/-- The fixed extension-to-MIME table (docmistral.py lines 160-164). -/
def mime_types : List (String × String) :=
  [(".pdf", "application/pdf"),
   (".pptx", "application/vnd.openxmlformats-officedocument.presentationml.presentation"),
   (".docx", "application/vnd.openxmlformats-officedocument.wordprocessingml.document")]

/-- Python `dict.get(k, d)`: association-list lookup with a default. -/
def lookupD (l : List (String × String)) (k d : String) : String :=
  match l.find? (fun kv => kv.1 == k) with
  | some kv => kv.2
  | none => d

/-- Python `str.lower()` as applied to extension strings: lowercase each
character (the extensions compared against are all basic-latin, for which
per-character lowercasing coincides with Python's). -/
def str_to_lower (s : String) : String := ⟨s.data.map Char.toLower⟩

/-- The attributes of an input file that `convert_with_mistral_document_ai`
reads: its `Path.suffix` and the base64 encoding of its raw bytes (the
result of `open`/`read`/`base64.b64encode`, all performed by the Python
standard library and the operating system). -/
structure InputFile where
  suffix : String
  base64Bytes : String

/-- Shallow embedding of
`MistralDocumentProcessor.convert_with_mistral_document_ai`
(docmistral.py lines 133-211). The first component is the returned
Markdown or the raised error; the second is the trace of OCR requests
dispatched to the remote service. The client guard (line 143) raises
before the dispatch; the outer `try/except` (lines 209-211) re-raises, so
every error passes through unchanged. -/
def convert_with_mistral_document_ai (proc : Processor) (file : InputFile) :
    Except String String × List OcrRequest :=
  match proc.mistral_client with
  | none => (Except.error "Mistral AI client not initialized. Please provide an API key.", [])
  | some client =>
    if str_to_lower file.suffix ∈ document_formats then
      let base64_doc := file.base64Bytes
      let mime_type := lookupD mime_types (str_to_lower file.suffix) "application/octet-stream"
      let req := OcrRequest.documentUrl mime_type base64_doc
      match client.ocrProcess req with
      | Except.error e => (Except.error e, [req])
      | Except.ok ocr_response =>
          let all_content := ocr_response.pages.map (fun page =>
            "<!-- Page " ++ toString (page.index + 1) ++ " -->\n" ++ page.markdown)
          (Except.ok (String.intercalate "\n\n" all_content), [req])
    else if str_to_lower file.suffix ∈ image_formats then
      let req := OcrRequest.imageBase64 file.base64Bytes
      match client.ocrProcess req with
      | Except.error e => (Except.error e, [req])
      | Except.ok ocr_response =>
          match ocr_response.pages with
          | [] => (Except.ok "", [req])
          | page :: _ => (Except.ok page.markdown, [req])
    else
      (Except.error ("Unsupported file format: " ++ file.suffix), [])

/-- Embedding of `MistralDocumentProcessor.__init__` (docmistral.py lines
25-40): a falsy (empty) key raises `ValueError`; otherwise the external
`Mistral(api_key=...)` constructor runs (modelled by the `clientInit`
oracle) and its failure is re-raised (lines 38-40). -/
def MistralDocumentProcessor.init (clientInit : String → Except String Client)
    (mistral_api_key : String) : Except String Processor :=
  if mistral_api_key = "" then Except.error "Mistral API key is required"
  else
    match clientInit mistral_api_key with
    | Except.error e => Except.error e
    | Except.ok c => Except.ok { mistral_client := some c }

/-- Embedding of `MistralDocumentProcessor.perform_ocr_with_mistral`
(docmistral.py lines 82-131). Oracles: `save_ok` is whether `image.save`
on the temp path succeeds, `read_b64` is the outcome of
`open`/`read`/`b64encode` of the temp file, `chat_complete` is the
outcome of `chat.complete` for the built data URL. Returns the string the
function returns, whether a temporary file was created, and whether that
file still exists when the function returns. `os.unlink` (line 127) runs
only after a successful chat call; the `except` (lines 129-131) returns ""
without deleting the file. The `choices[0]` access happens after the
unlink, so an empty choices list raises after cleanup. -/
def perform_ocr_with_mistral
    (has_client : Bool) (save_ok : Bool)
    (read_b64 : Except String String)
    (chat_complete : String → Except String ChatResponse) :
    String × Bool × Bool :=
  if has_client = false then ("", false, false)
  else if save_ok = false then ("", true, true)
  else
    match read_b64 with
    | Except.error _ => ("", true, true)
    | Except.ok base64_img =>
      match chat_complete ("data:image/png;base64," ++ base64_img) with
      | Except.error _ => ("", true, true)
      | Except.ok response =>
        match response.choices with
        | [] => ("", true, false)
        | c :: _ => (c, true, false)

/-- A text block of the MCP protocol response (`TextContent(type="text",
text=...)`; the type tag is always "text", so only the text is kept). -/
structure TextContent where
  text : String
deriving Repr, DecidableEq

/-- The arguments dictionary of a `process_document` tool call: the three
keys the handler reads (`mime_type` is never read). `none` models an
absent key. -/
structure McpArgs where
  file_path : Option String
  base64_content : Option String
  file_name : Option String

/-- Python truthiness of `arguments.get(key)`: absent (`None`) and the
empty string are falsy. -/
def truthy : Option String → Bool
  | none => false
  | some s => s != ""

/-- Embedding of `handle_process_document` (mcp_server.py lines 121-167).
Oracles: `path_exists` for `Path.exists`, `conv_path` for the conversion
of an on-disk file, `b64decode` for `base64.b64decode`, `conv_tmp` for
the conversion of the staged temporary file. Returns the response blocks,
whether a temporary file was created, and whether it still exists at
return. In the base64 branch the temp file is created before the decode
(line 147); a decode or write failure skips the inner `try/finally`, so
only the conversion step's cleanup is guaranteed (lines 158-161). -/
def handle_process_document
    (path_exists : String → Bool)
    (conv_path : String → Except String String)
    (b64decode : String → Except String String)
    (conv_tmp : Except String String)
    (args : McpArgs) : List TextContent × Bool × Bool :=
  let file_path := args.file_path
  let base64_content := args.base64_content
  let file_name := args.file_name
  if truthy file_path then
    let fp := file_path.getD ""
    if !path_exists fp then
      ([⟨"File not found: " ++ fp⟩], false, false)
    else
      match conv_path fp with
      | Except.ok markdown_content =>
          ([⟨"Document processed successfully:\n\n" ++ markdown_content⟩], false, false)
      | Except.error e => ([⟨"Processing failed: " ++ e⟩], false, false)
  else if truthy base64_content && truthy file_name then
    match b64decode (base64_content.getD "") with
    | Except.error e => ([⟨"Processing failed: " ++ e⟩], true, true)
    | Except.ok _content =>
        match conv_tmp with
        | Except.ok markdown_content =>
            ([⟨"Document processed successfully:\n\n" ++ markdown_content⟩], true, false)
        | Except.error e => ([⟨"Processing failed: " ++ e⟩], true, false)
  else
    ([⟨"Either file_path or (base64_content + file_name) is required"⟩], false, false)

/-- The static description returned by `handle_get_supported_formats`
(mcp_server.py lines 170-199). -/
def formats_info : String :=
  "Supported File Formats:\n\n**Documents** (processed via Mistral OCR API):\n- PDF (.pdf)\n- PowerPoint (.pptx) \n- Word (.docx)\n\n**Images** (processed via Mistral OCR API):\n- PNG (.png)\n- JPEG (.jpg, .jpeg)\n- GIF (.gif)\n- BMP (.bmp)\n- AVIF (.avif)\n\n**Limitations:**\n- File size limit: 50 MB\n- Page limit: 1,000 pages per document\n- Processing speed: up to 2,000 pages per minute\n- Pricing: $0.001 per page ($1 per 1,000 pages)\n\n**Features:**\n- Advanced document understanding\n- Complex layout handling (tables, equations)\n- OCR for scanned documents and handwritten text\n- Batch processing with directory structure preservation\n"

/-- Embedding of `handle_get_supported_formats` (mcp_server.py lines
170-199): one static text block. -/
def handle_get_supported_formats : List TextContent := [⟨formats_info⟩]

/-- Embedding of `call_tool` (mcp_server.py lines 98-119).
`processor_none` is whether the global processor is still `None`;
`init_outcome` is what `initialize_processor` would do (raise or
succeed). Every internal failure is caught and returned as a text block;
the function's total return type is the protocol response itself. -/
def call_tool
    (processor_none : Bool) (init_outcome : Except String Unit)
    (path_exists : String → Bool)
    (conv_path : String → Except String String)
    (b64decode : String → Except String String)
    (conv_tmp : Except String String)
    (name : String) (args : McpArgs) : List TextContent :=
  let dispatch : List TextContent :=
    if name = "process_document" then
      (handle_process_document path_exists conv_path b64decode conv_tmp args).1
    else if name = "get_supported_formats" then
      handle_get_supported_formats
    else
      [⟨"Unknown tool: " ++ name⟩]
  if processor_none then
    match init_outcome with
    | Except.error e => [⟨"Error initializing processor: " ++ e⟩]
    | Except.ok _ => dispatch
  else dispatch

/-- The filesystem state threaded through `convert_file`: the existing
directories, the files with their contents (paths are component lists),
and which paths the operating system would reject with a write error. -/
structure FS where
  dirs : List (List String)
  files : List (List String × String)
  write_fails : List String → Bool

/-- The directories brought into existence by
`mkdir(parents=True, exist_ok=True)` on a path: every nonempty initial
segment, the path itself included. -/
def ancestors (parts : List String) : List (List String) :=
  (List.range parts.length).map (fun i => parts.take (i + 1))

/-- `output_path.parent.mkdir(parents=True, exist_ok=True)` on the state:
record the directory and all its ancestors as existing. -/
def mkdir_parents (fs : FS) (dir : List String) : FS :=
  { fs with dirs := fs.dirs ++ ancestors dir }

/-- `open(path, "w")` followed by `write`: fails on paths the operating
system rejects, otherwise replaces any previous file at the path with the
new content. -/
def fs_write (fs : FS) (p : List String) (content : String) : Except String FS :=
  if fs.write_fails p then Except.error "write failed"
  else Except.ok { fs with files := (p, content) :: fs.files.filter (fun kv => kv.1 != p) }

/-- The content of the file at a path, when one exists. -/
def fs_read (fs : FS) (p : List String) : Option String :=
  (fs.files.find? (fun kv => kv.1 == p)).map (fun kv => kv.2)

/-- Embedding of `MistralDocumentProcessor.convert_file` (docmistral.py
lines 213-238). `conv` is the outcome of
`convert_with_mistral_document_ai` on the input file. The conversion runs
first; only on its success are the output's parent directories created
(line 229) and the Markdown written verbatim (lines 230-231). Any raised
error is caught by the `except` (lines 236-238) and reported as `false`. -/
def convert_file (conv : Except String String) (fs : FS) (output_path : List String) :
    Bool × FS :=
  match conv with
  | Except.error _ => (false, fs)
  | Except.ok markdown_content =>
    let fs1 := mkdir_parents fs output_path.dropLast
    match fs_write fs1 output_path markdown_content with
    | Except.error _ => (false, fs1)
    | Except.ok fs2 => (true, fs2)

/-- One result of `input_dir.rglob('*')`: the entry's path relative to
the input root decomposed as Python's `Path` does (directory components,
`stem`, `suffix`, the suffix being "" when the name has none), and
whether the entry is a regular file. -/
structure Entry where
  relDirs : List String
  stem : String
  ext : String
  is_file : Bool
deriving Repr, DecidableEq

/-- The supported-extension set of `process_directory` (docmistral.py
line 251), the union of the document and image sets. -/
def supported_extensions : List String :=
  [".pdf", ".pptx", ".docx", ".png", ".jpg", ".jpeg", ".gif", ".bmp", ".avif"]

/-- The filter at docmistral.py line 256: a regular file whose lowercased
suffix is supported. -/
def entry_matches (e : Entry) : Bool :=
  e.is_file && decide (str_to_lower e.ext ∈ supported_extensions)

/-- The entry's input path: the input root joined with its relative path. -/
def entry_input_path (input_dir : List String) (e : Entry) : List String :=
  input_dir ++ e.relDirs ++ [e.stem ++ e.ext]

/-- The mirrored output path (docmistral.py lines 257-258):
`output_dir / relative_path.with_suffix('.md')`. -/
def entry_output_path (output_dir : List String) (e : Entry) : List String :=
  output_dir ++ e.relDirs ++ [e.stem ++ ".md"]

/-- One conversion attempt of a batch run: the input path, the output
path handed to `convert_file`, and the outcome. -/
structure Attempt where
  input : List String
  output : List String
  ok : Bool
deriving Repr, DecidableEq

/-- The loop body of `process_directory` (docmistral.py lines 255-263):
skip non-matching entries; convert matching ones and bump the success or
failure count, recording the attempt. -/
def process_directory_step (oracle : List String → List String → Bool)
    (input_dir output_dir : List String)
    (acc : (Nat × Nat) × List Attempt) (e : Entry) : (Nat × Nat) × List Attempt :=
  if entry_matches e then
    let ip := entry_input_path input_dir e
    let op := entry_output_path output_dir e
    if oracle ip op then ((acc.1.1 + 1, acc.1.2), acc.2 ++ [⟨ip, op, true⟩])
    else ((acc.1.1, acc.1.2 + 1), acc.2 ++ [⟨ip, op, false⟩])
  else acc

/-- Embedding of `MistralDocumentProcessor.process_directory`
(docmistral.py lines 240-265), instrumented with the list of conversion
attempts in iteration order. `oracle` gives `convert_file`'s outcome for
an input/output pair; `entries` is the `rglob` enumeration. -/
def process_directory_run (oracle : List String → List String → Bool)
    (input_dir output_dir : List String) (entries : List Entry) :
    (Nat × Nat) × List Attempt :=
  entries.foldl (process_directory_step oracle input_dir output_dir) ((0, 0), [])

/-- The `(success_count, failed_count)` tally `process_directory`
returns. -/
def process_directory (oracle : List String → List String → Bool)
    (input_dir output_dir : List String) (entries : List Entry) : Nat × Nat :=
  (process_directory_run oracle input_dir output_dir entries).1

/-- The closed form of a batch run's attempts: one per matching entry, in
traversal order. -/
def directory_attempts (oracle : List String → List String → Bool)
    (input_dir output_dir : List String) (entries : List Entry) : List Attempt :=
  (entries.filter entry_matches).map (fun e =>
    ⟨entry_input_path input_dir e, entry_output_path output_dir e,
     oracle (entry_input_path input_dir e) (entry_output_path output_dir e)⟩)

/-- The parsed command-line arguments of `main` (docmistral.py lines
270-279): `--input`, `--output` (never `None`, they default), and the
optional `--mistral-api-key` and `--file`. -/
structure Args where
  input : String
  output : String
  mistral_api_key : Option String
  file : Option String

/-- docmistral.py line 284: the `--mistral-api-key` flag, or the
`MISTRAL_API_KEY` environment variable when the flag is falsy. -/
def effective_key (args : Args) (env_key : Option String) : Option String :=
  if truthy args.mistral_api_key then args.mistral_api_key else env_key

/-- Embedding of `main` (docmistral.py lines 268-322), returning the
process exit code (`sys.exit(1)` is 1, falling off the end is 0).
Oracles: `path_exists` for `Path.exists`, `single_convert_ok` for
`convert_file` in single-file mode, `oracle` and `entries` for the batch
run; `input_dir_parts`/`output_dir_parts` are the components of
`Path(args.input)`/`Path(args.output)`. With a truthy key the processor's
construction succeeds: its only failure mode in docmistral.py is a falsy
key, the external client constructor being a plain handle creation. -/
def main (env_key : Option String) (path_exists : String → Bool)
    (single_convert_ok : String → Bool)
    (oracle : List String → List String → Bool) (entries : List Entry)
    (input_dir_parts output_dir_parts : List String) (args : Args) : Nat :=
  let mistral_api_key := effective_key args env_key
  if truthy mistral_api_key = false then 1
  else
    let batch : Nat :=
      if path_exists args.input = false then 1
      else if (process_directory oracle input_dir_parts output_dir_parts entries).2 > 0
      then 1 else 0
    match args.file with
    | none => batch
    | some f =>
      if f = "" then batch
      else if path_exists f = false then 1
      else if single_convert_ok f then 0 else 1

end DocMistral

namespace DocMistral

/-- C7: a converter cannot be constructed without a credential (the
constructor raises "Mistral API key is required" for an empty key, for
every behaviour of the external client constructor), and on any processor
state holding no client handle, `convert` raises the client-not-initialized
error and dispatches no request. -/
theorem C7_client_not_configured :
    (∀ clientInit : String → Except String Client,
        MistralDocumentProcessor.init clientInit "" =
          Except.error "Mistral API key is required") ∧
    (∀ file : InputFile,
        convert_with_mistral_document_ai { mistral_client := none } file =
          (Except.error "Mistral AI client not initialized. Please provide an API key.", [])) := by
  constructor
  · intro clientInit
    rfl
  · intro file
    rfl

/-- C4: with a client present, a path whose lowercased extension is a
document format dispatches exactly one document-shaped request; an image
format dispatches exactly one image-shaped request; any other extension
raises `Unsupported file format` and dispatches no request at all. -/
theorem C4_dispatch_by_extension (client : Client) (file : InputFile) :
    (str_to_lower file.suffix ∈ document_formats →
      (convert_with_mistral_document_ai ⟨some client⟩ file).2 =
        [OcrRequest.documentUrl
          (lookupD mime_types (str_to_lower file.suffix) "application/octet-stream")
          file.base64Bytes]) ∧
    (str_to_lower file.suffix ∈ image_formats →
      (convert_with_mistral_document_ai ⟨some client⟩ file).2 =
        [OcrRequest.imageBase64 file.base64Bytes]) ∧
    (str_to_lower file.suffix ∉ document_formats →
     str_to_lower file.suffix ∉ image_formats →
      convert_with_mistral_document_ai ⟨some client⟩ file =
        (Except.error ("Unsupported file format: " ++ file.suffix), [])) := by
  refine ⟨fun hdoc => ?_, fun himg => ?_, fun hnd hni => ?_⟩
  · have hni : str_to_lower file.suffix ∉ image_formats := by
      intro hmem
      simp only [document_formats, List.mem_cons, List.not_mem_nil, or_false] at hdoc
      simp only [image_formats, List.mem_cons, List.not_mem_nil, or_false] at hmem
      rcases hdoc with h | h | h <;> rw [h] at hmem <;> simp_all
    simp only [convert_with_mistral_document_ai, if_pos hdoc]
    cases client.ocrProcess (OcrRequest.documentUrl
        (lookupD mime_types (str_to_lower file.suffix) "application/octet-stream")
        file.base64Bytes) with
    | error e => rfl
    | ok r => rfl
  · have hnd : str_to_lower file.suffix ∉ document_formats := by
      intro hmem
      simp only [image_formats, List.mem_cons, List.not_mem_nil, or_false] at himg
      simp only [document_formats, List.mem_cons, List.not_mem_nil, or_false] at hmem
      rcases hmem with h | h | h <;> rw [h] at himg <;> simp_all
    simp only [convert_with_mistral_document_ai, if_neg hnd, if_pos himg]
    cases client.ocrProcess (OcrRequest.imageBase64 file.base64Bytes) with
    | error e => rfl
    | ok r =>
      obtain ⟨pages⟩ := r
      cases pages with
      | nil => rfl
      | cons p rest => rfl
  · simp only [convert_with_mistral_document_ai, if_neg hnd, if_neg hni]

/-- Witness for C4: a `.pdf` input dispatches one document request, a
`.png` input one image request, and a `.txt` input fails with no request. -/
theorem C4_dispatch_by_extension_witness :
    (convert_with_mistral_document_ai
        ⟨some ⟨fun _ => Except.ok ⟨[]⟩⟩⟩ ⟨".pdf", "QQ=="⟩).2 =
      [OcrRequest.documentUrl "application/pdf" "QQ=="] ∧
    (convert_with_mistral_document_ai
        ⟨some ⟨fun _ => Except.ok ⟨[]⟩⟩⟩ ⟨".png", "QQ=="⟩).2 =
      [OcrRequest.imageBase64 "QQ=="] ∧
    convert_with_mistral_document_ai
        ⟨some ⟨fun _ => Except.ok ⟨[]⟩⟩⟩ ⟨".txt", "QQ=="⟩ =
      (Except.error "Unsupported file format: .txt", []) := by
  refine ⟨?_, ?_, ?_⟩
  · have h := (C4_dispatch_by_extension ⟨fun _ => Except.ok ⟨[]⟩⟩ ⟨".pdf", "QQ=="⟩).1
      (by decide)
    exact h
  · exact (C4_dispatch_by_extension ⟨fun _ => Except.ok ⟨[]⟩⟩ ⟨".png", "QQ=="⟩).2.1
      (by decide)
  · exact (C4_dispatch_by_extension ⟨fun _ => Except.ok ⟨[]⟩⟩ ⟨".txt", "QQ=="⟩).2.2
      (by decide) (by decide)

/-- C2: for every document-classified input whose OCR response carries the
page sequence `pages`, the conversion returns the fragments in response
order, each prefixed by the literal marker for index + 1 and joined by a
blank line; in particular pages `[{0, A}, {1, B}]` produce exactly
`<!-- Page 1 -->\nA\n\n<!-- Page 2 -->\nB`. -/
theorem C2_document_page_markers (client : Client) (file : InputFile) (pages : List Page)
    (hdoc : str_to_lower file.suffix ∈ document_formats)
    (hresp : client.ocrProcess
        (OcrRequest.documentUrl
          (lookupD mime_types (str_to_lower file.suffix) "application/octet-stream")
          file.base64Bytes) = Except.ok ⟨pages⟩) :
    (convert_with_mistral_document_ai ⟨some client⟩ file).1 =
      Except.ok (String.intercalate "\n\n" (pages.map (fun page =>
        "<!-- Page " ++ toString (page.index + 1) ++ " -->\n" ++ page.markdown))) ∧
    (pages = [⟨0, "A"⟩, ⟨1, "B"⟩] →
      (convert_with_mistral_document_ai ⟨some client⟩ file).1 =
        Except.ok "<!-- Page 1 -->\nA\n\n<!-- Page 2 -->\nB") := by
  have hmain : (convert_with_mistral_document_ai ⟨some client⟩ file).1 =
      Except.ok (String.intercalate "\n\n" (pages.map (fun page =>
        "<!-- Page " ++ toString (page.index + 1) ++ " -->\n" ++ page.markdown))) := by
    simp only [convert_with_mistral_document_ai, if_pos hdoc]
    rw [hresp]
  refine ⟨hmain, fun hp => ?_⟩
  rw [hmain, hp]
  rfl

/-- Witness for C2: the mocked service returning pages
`[{0, A}, {1, B}]` for a `.pdf` input yields exactly the two-marker
blank-line-joined string. -/
theorem C2_document_page_markers_witness :
    (convert_with_mistral_document_ai
        ⟨some ⟨fun _ => Except.ok ⟨[⟨0, "A"⟩, ⟨1, "B"⟩]⟩⟩⟩ ⟨".pdf", "QQ=="⟩).1 =
      Except.ok "<!-- Page 1 -->\nA\n\n<!-- Page 2 -->\nB" :=
  (C2_document_page_markers ⟨fun _ => Except.ok ⟨[⟨0, "A"⟩, ⟨1, "B"⟩]⟩⟩
    ⟨".pdf", "QQ=="⟩ [⟨0, "A"⟩, ⟨1, "B"⟩] (by decide) rfl).2 rfl

/-- C5: for every image-classified input, a service response with zero
pages yields the empty string (not an error), and a response with at least
one page yields the first page's markdown. -/
theorem C5_image_page_handling (client : Client) (file : InputFile)
    (himg : str_to_lower file.suffix ∈ image_formats)
    (hnd : str_to_lower file.suffix ∉ document_formats) :
    (client.ocrProcess (OcrRequest.imageBase64 file.base64Bytes) = Except.ok ⟨[]⟩ →
      (convert_with_mistral_document_ai ⟨some client⟩ file).1 = Except.ok "") ∧
    (∀ page rest,
      client.ocrProcess (OcrRequest.imageBase64 file.base64Bytes) =
          Except.ok ⟨page :: rest⟩ →
      (convert_with_mistral_document_ai ⟨some client⟩ file).1 =
        Except.ok page.markdown) := by
  constructor
  · intro hresp
    simp only [convert_with_mistral_document_ai, if_neg hnd, if_pos himg]
    rw [hresp]
  · intro page rest hresp
    simp only [convert_with_mistral_document_ai, if_neg hnd, if_pos himg]
    rw [hresp]

/-- Witness for C5: a `.png` input with a zero-page response returns the
empty string; with a one-page response it returns that page's markdown. -/
theorem C5_image_page_handling_witness :
    (convert_with_mistral_document_ai
        ⟨some ⟨fun _ => Except.ok ⟨[]⟩⟩⟩ ⟨".png", "QQ=="⟩).1 = Except.ok "" ∧
    (convert_with_mistral_document_ai
        ⟨some ⟨fun _ => Except.ok ⟨[⟨0, "hello"⟩]⟩⟩⟩ ⟨".png", "QQ=="⟩).1 =
      Except.ok "hello" := by
  constructor
  · exact (C5_image_page_handling ⟨fun _ => Except.ok ⟨[]⟩⟩ ⟨".png", "QQ=="⟩
      (by decide) (by decide)).1 rfl
  · exact (C5_image_page_handling ⟨fun _ => Except.ok ⟨[⟨0, "hello"⟩]⟩⟩ ⟨".png", "QQ=="⟩
      (by decide) (by decide)).2 ⟨0, "hello"⟩ [] rfl

/-- C1 fails on the code: with a client present, a successful save and
read of the staged bytes, and a chat call that raises,
`perform_ocr_with_mistral` creates a temporary file and that file still
exists when the call returns (the `os.unlink` at docmistral.py line 127
is reached only after a successful chat call, and the `except` handler
returns without deleting the file). -/
theorem C1_temp_cleanup_counterexample :
    (perform_ocr_with_mistral true true (Except.ok "aGk=")
        (fun _ => Except.error "connection reset")).2 = (true, true) := rfl

/-- C1 amended: in `handle_process_document`'s base64 branch, whenever
the staging decode succeeds the temporary file is deleted before
returning, on both success and failure of the conversion; in
`perform_ocr_with_mistral` the temporary file is deleted only on paths
that reach the unlink (a successful chat call) — when the chat call
fails, the file still exists at return. -/
theorem C1_temp_cleanup_amended
    (path_exists : String → Bool) (conv_path : String → Except String String)
    (b64decode : String → Except String String) (conv_tmp : Except String String)
    (args : McpArgs) (read_b64 : Except String String)
    (chat_complete : String → Except String ChatResponse) :
    ((∃ c, b64decode (args.base64_content.getD "") = Except.ok c) →
      (handle_process_document path_exists conv_path b64decode conv_tmp args).2.2 = false) ∧
    (∀ s resp, read_b64 = Except.ok s →
      chat_complete ("data:image/png;base64," ++ s) = Except.ok resp →
      (perform_ocr_with_mistral true true read_b64 chat_complete).2.2 = false) ∧
    (∀ s e, read_b64 = Except.ok s →
      chat_complete ("data:image/png;base64," ++ s) = Except.error e →
      (perform_ocr_with_mistral true true read_b64 chat_complete).2.2 = true) := by
  refine ⟨fun h => ?_, fun s resp hr hc => ?_, fun s e hr hc => ?_⟩
  · rcases h with ⟨c, hc⟩
    simp only [handle_process_document]
    split
    · split
      · rfl
      · split <;> rfl
    · split
      · rw [hc]
        cases conv_tmp <;> rfl
      · rfl
  · subst hr
    have hred : perform_ocr_with_mistral true true (Except.ok s) chat_complete =
        (match chat_complete ("data:image/png;base64," ++ s) with
         | Except.error _ => ("", true, true)
         | Except.ok response =>
             match response.choices with
             | [] => ("", true, false)
             | c :: _ => (c, true, false)) := rfl
    rw [hred, hc]
    obtain ⟨choices⟩ := resp
    cases choices <;> rfl
  · subst hr
    have hred : perform_ocr_with_mistral true true (Except.ok s) chat_complete =
        (match chat_complete ("data:image/png;base64," ++ s) with
         | Except.error _ => ("", true, true)
         | Except.ok response =>
             match response.choices with
             | [] => ("", true, false)
             | c :: _ => (c, true, false)) := rfl
    rw [hred, hc]

/-- Witness for C1 amended: the base64 branch with a failing conversion
leaves no temp file; a successful chat call leaves no temp file; a
failing chat call leaves the temp file behind. -/
theorem C1_temp_cleanup_amended_witness :
    (handle_process_document (fun _ => true) (fun _ => Except.ok "")
        (fun _ => Except.ok "hi") (Except.error "boom")
        ⟨none, some "aGk=", some "f.pdf"⟩).2.2 = false ∧
    (perform_ocr_with_mistral true true (Except.ok "aGk=")
        (fun _ => Except.ok ⟨["text"]⟩)).2.2 = false ∧
    (perform_ocr_with_mistral true true (Except.ok "aGk=")
        (fun _ => Except.error "connection reset")).2.2 = true := by
  refine ⟨?_, ?_, ?_⟩
  · exact (C1_temp_cleanup_amended (fun _ => true) (fun _ => Except.ok "")
      (fun _ => Except.ok "hi") (Except.error "boom") ⟨none, some "aGk=", some "f.pdf"⟩
      (Except.ok "aGk=") (fun _ => Except.error "x")).1 ⟨"hi", rfl⟩
  · exact (C1_temp_cleanup_amended (fun _ => true) (fun _ => Except.ok "")
      (fun _ => Except.ok "hi") (Except.error "boom") ⟨none, some "aGk=", some "f.pdf"⟩
      (Except.ok "aGk=") (fun _ => Except.ok ⟨["text"]⟩)).2.1 "aGk=" ⟨["text"]⟩ rfl rfl
  · exact (C1_temp_cleanup_amended (fun _ => true) (fun _ => Except.ok "")
      (fun _ => Except.ok "hi") (Except.error "boom") ⟨none, some "aGk=", some "f.pdf"⟩
      (Except.ok "aGk=") (fun _ => Except.error "connection reset")).2.2
      "aGk=" "connection reset" rfl rfl

/-- Every path of `handle_process_document` returns exactly one text
block. -/
lemma handle_process_document_singleton
    (path_exists : String → Bool) (conv_path : String → Except String String)
    (b64decode : String → Except String String) (conv_tmp : Except String String)
    (args : McpArgs) :
    (handle_process_document path_exists conv_path b64decode conv_tmp args).1.length = 1 := by
  simp only [handle_process_document]
  split
  · split
    · rfl
    · split <;> rfl
  · split
    · split
      · rfl
      · split <;> rfl
    · rfl

/-- C9: `call_tool` always returns exactly one text block, and each
failure mode — processor initialization error, unknown tool, missing
arguments, nonexistent file, conversion error — is returned as the
corresponding descriptive text block rather than raised. -/
theorem C9_tool_errors_as_text
    (processor_none : Bool) (init_outcome : Except String Unit)
    (path_exists : String → Bool) (conv_path : String → Except String String)
    (b64decode : String → Except String String) (conv_tmp : Except String String)
    (name : String) (args : McpArgs) :
    (call_tool processor_none init_outcome path_exists conv_path b64decode conv_tmp
        name args).length = 1 ∧
    (∀ e, processor_none = true → init_outcome = Except.error e →
      call_tool processor_none init_outcome path_exists conv_path b64decode conv_tmp
          name args = [⟨"Error initializing processor: " ++ e⟩]) ∧
    (processor_none = false → name ≠ "process_document" →
     name ≠ "get_supported_formats" →
      call_tool processor_none init_outcome path_exists conv_path b64decode conv_tmp
          name args = [⟨"Unknown tool: " ++ name⟩]) ∧
    (processor_none = false → name = "process_document" →
     truthy args.file_path = false →
     (truthy args.base64_content && truthy args.file_name) = false →
      call_tool processor_none init_outcome path_exists conv_path b64decode conv_tmp
          name args =
        [⟨"Either file_path or (base64_content + file_name) is required"⟩]) ∧
    (∀ fp, processor_none = false → name = "process_document" →
     args.file_path = some fp → fp ≠ "" → path_exists fp = false →
      call_tool processor_none init_outcome path_exists conv_path b64decode conv_tmp
          name args = [⟨"File not found: " ++ fp⟩]) ∧
    (∀ fp e, processor_none = false → name = "process_document" →
     args.file_path = some fp → fp ≠ "" → path_exists fp = true →
     conv_path fp = Except.error e →
      call_tool processor_none init_outcome path_exists conv_path b64decode conv_tmp
          name args = [⟨"Processing failed: " ++ e⟩]) := by
  refine ⟨?_, fun e hn hi => ?_, fun hn h1 h2 => ?_, fun hn h1 h2 h3 => ?_,
    fun fp hn h1 h2 h3 h4 => ?_, fun fp e hn h1 h2 h3 h4 h5 => ?_⟩
  · simp only [call_tool]
    cases processor_none with
    | true =>
      cases init_outcome with
      | error e => rfl
      | ok u =>
        simp only [if_true]
        split
        · exact handle_process_document_singleton path_exists conv_path b64decode conv_tmp args
        · split <;> rfl
    | false =>
      simp only [Bool.false_eq_true, if_false]
      split
      · exact handle_process_document_singleton path_exists conv_path b64decode conv_tmp args
      · split <;> rfl
  · subst hn
    simp only [call_tool, hi, if_true]
  · subst hn
    simp only [call_tool, Bool.false_eq_true, if_false, if_neg h1, if_neg h2]
  · subst hn h1
    simp [call_tool, handle_process_document, h2, h3]
  · subst hn h1
    have htr : truthy (some fp) = true := by simp [truthy, h3]
    simp [call_tool, handle_process_document, htr, h2, h4]
  · subst hn h1
    have htr : truthy (some fp) = true := by simp [truthy, h3]
    simp [call_tool, handle_process_document, htr, h2, h4, h5]

/-- Witness for C9: concrete single-block responses for a successful
call, an initialization failure, an unknown tool, missing arguments, a
missing file, and a conversion failure. -/
theorem C9_tool_errors_as_text_witness :
    (call_tool true (Except.error "no key") (fun _ => true)
        (fun _ => Except.ok "md") (fun _ => Except.ok "b") (Except.ok "md")
        "process_document" ⟨some "a.pdf", none, none⟩ =
      [⟨"Error initializing processor: no key"⟩]) ∧
    (call_tool false (Except.ok ()) (fun _ => true)
        (fun _ => Except.ok "md") (fun _ => Except.ok "b") (Except.ok "md")
        "mystery" ⟨some "a.pdf", none, none⟩ = [⟨"Unknown tool: mystery"⟩]) ∧
    (call_tool false (Except.ok ()) (fun _ => true)
        (fun _ => Except.ok "md") (fun _ => Except.ok "b") (Except.ok "md")
        "process_document" ⟨none, none, none⟩ =
      [⟨"Either file_path or (base64_content + file_name) is required"⟩]) ∧
    (call_tool false (Except.ok ()) (fun _ => false)
        (fun _ => Except.ok "md") (fun _ => Except.ok "b") (Except.ok "md")
        "process_document" ⟨some "a.pdf", none, none⟩ =
      [⟨"File not found: a.pdf"⟩]) ∧
    (call_tool false (Except.ok ()) (fun _ => true)
        (fun _ => Except.error "boom") (fun _ => Except.ok "b") (Except.ok "md")
        "process_document" ⟨some "a.pdf", none, none⟩ =
      [⟨"Processing failed: boom"⟩]) := by
  refine ⟨?_, ?_, ?_, ?_, ?_⟩
  · exact (C9_tool_errors_as_text true (Except.error "no key") (fun _ => true)
      (fun _ => Except.ok "md") (fun _ => Except.ok "b") (Except.ok "md")
      "process_document" ⟨some "a.pdf", none, none⟩).2.1 "no key" rfl rfl
  · exact (C9_tool_errors_as_text false (Except.ok ()) (fun _ => true)
      (fun _ => Except.ok "md") (fun _ => Except.ok "b") (Except.ok "md")
      "mystery" ⟨some "a.pdf", none, none⟩).2.2.1 rfl (by decide) (by decide)
  · exact (C9_tool_errors_as_text false (Except.ok ()) (fun _ => true)
      (fun _ => Except.ok "md") (fun _ => Except.ok "b") (Except.ok "md")
      "process_document" ⟨none, none, none⟩).2.2.2.1 rfl rfl rfl rfl
  · exact (C9_tool_errors_as_text false (Except.ok ()) (fun _ => false)
      (fun _ => Except.ok "md") (fun _ => Except.ok "b") (Except.ok "md")
      "process_document" ⟨some "a.pdf", none, none⟩).2.2.2.2.1 "a.pdf" rfl rfl rfl
      (by decide) rfl
  · exact (C9_tool_errors_as_text false (Except.ok ()) (fun _ => true)
      (fun _ => Except.error "boom") (fun _ => Except.ok "b") (Except.ok "md")
      "process_document" ⟨some "a.pdf", none, none⟩).2.2.2.2.2 "a.pdf" "boom" rfl rfl
      rfl (by decide) rfl rfl

/-- C6: `convert_file` reports a boolean rather than raising: a
conversion error yields `false` with the filesystem untouched; on success
with a writable path it creates every missing parent directory of the
output, writes the Markdown verbatim (overwriting any previous file at
that path), and returns `true`; a write error yields `false`. -/
theorem C6_convert_file_boundary (conv : Except String String) (fs : FS)
    (p : List String) :
    (∀ e, conv = Except.error e → convert_file conv fs p = (false, fs)) ∧
    (∀ md, conv = Except.ok md → fs.write_fails p = false →
      (convert_file conv fs p).1 = true ∧
      fs_read (convert_file conv fs p).2 p = some md ∧
      ∀ d ∈ ancestors p.dropLast, d ∈ (convert_file conv fs p).2.dirs) ∧
    (∀ md, conv = Except.ok md → fs.write_fails p = true →
      (convert_file conv fs p).1 = false) := by
  refine ⟨fun e he => ?_, fun md hm hw => ?_, fun md hm hw => ?_⟩
  · subst he; rfl
  · subst hm
    refine ⟨?_, ?_, ?_⟩
    · show (convert_file (Except.ok md) fs p).1 = true
      simp [convert_file, fs_write, mkdir_parents, hw]
    · show fs_read (convert_file (Except.ok md) fs p).2 p = some md
      simp [convert_file, fs_write, mkdir_parents, hw, fs_read]
    · intro d hd
      have h2 : (convert_file (Except.ok md) fs p).2.dirs =
          fs.dirs ++ ancestors p.dropLast := by
        simp [convert_file, fs_write, mkdir_parents, hw]
      rw [h2]
      exact List.mem_append_right _ hd
  · subst hm
    simp [convert_file, fs_write, mkdir_parents, hw]

/-- Witness for C6: a failing conversion leaves an empty filesystem
untouched; a successful conversion into `out/sub/a.md` returns `true`,
creates `out` and `out/sub`, and stores the text; a rejected write
returns `false`. -/
theorem C6_convert_file_boundary_witness :
    convert_file (Except.error "boom") ⟨[], [], fun _ => false⟩ ["out", "a.md"] =
      (false, ⟨[], [], fun _ => false⟩) ∧
    ((convert_file (Except.ok "hello") ⟨[], [], fun _ => false⟩
        ["out", "sub", "a.md"]).1 = true ∧
      fs_read (convert_file (Except.ok "hello") ⟨[], [], fun _ => false⟩
        ["out", "sub", "a.md"]).2 ["out", "sub", "a.md"] = some "hello" ∧
      ∀ d ∈ ancestors ["out", "sub"],
        d ∈ (convert_file (Except.ok "hello") ⟨[], [], fun _ => false⟩
          ["out", "sub", "a.md"]).2.dirs) ∧
    (convert_file (Except.ok "x") ⟨[], [], fun _ => true⟩ ["out", "a.md"]).1 = false := by
  refine ⟨?_, ?_, ?_⟩
  · exact (C6_convert_file_boundary (Except.error "boom") ⟨[], [], fun _ => false⟩
      ["out", "a.md"]).1 "boom" rfl
  · exact (C6_convert_file_boundary (Except.ok "hello") ⟨[], [], fun _ => false⟩
      ["out", "sub", "a.md"]).2.1 "hello" rfl rfl
  · exact (C6_convert_file_boundary (Except.ok "x") ⟨[], [], fun _ => true⟩
      ["out", "a.md"]).2.2 "x" rfl rfl

/-- C10: when the conversion step raises, `convert_file` returns `false`
and hands back the filesystem unchanged — the output file is not created
and no parent directory is made. -/
theorem C10_convert_file_error_atomic (fs : FS) (p : List String) (e : String) :
    convert_file (Except.error e) fs p = (false, fs) ∧
    fs_read (convert_file (Except.error e) fs p).2 p = fs_read fs p ∧
    (convert_file (Except.error e) fs p).2.dirs = fs.dirs :=
  ⟨rfl, rfl, rfl⟩

/-- The batch fold's attempt trace, from any starting accumulator. -/
lemma process_directory_fold_trace (oracle : List String → List String → Bool)
    (input_dir output_dir : List String) (entries : List Entry) :
    ∀ acc, (entries.foldl (process_directory_step oracle input_dir output_dir) acc).2 =
      acc.2 ++ directory_attempts oracle input_dir output_dir entries := by
  induction entries with
  | nil => intro acc; simp [directory_attempts]
  | cons e rest ih =>
    intro acc
    rw [List.foldl_cons, ih]
    by_cases hme : entry_matches e
    · by_cases hor : oracle (entry_input_path input_dir e) (entry_output_path output_dir e)
      · simp [process_directory_step, hme, hor, directory_attempts]
      · simp [process_directory_step, hme, hor, directory_attempts]
    · simp [process_directory_step, hme, directory_attempts]

/-- The batch fold's success count, from any starting accumulator. -/
lemma process_directory_fold_success (oracle : List String → List String → Bool)
    (input_dir output_dir : List String) (entries : List Entry) :
    ∀ acc, (entries.foldl (process_directory_step oracle input_dir output_dir) acc).1.1 =
      acc.1.1 + ((directory_attempts oracle input_dir output_dir entries).filter
        (fun a => a.ok)).length := by
  induction entries with
  | nil => intro acc; simp [directory_attempts]
  | cons e rest ih =>
    intro acc
    rw [List.foldl_cons, ih]
    by_cases hme : entry_matches e
    · by_cases hor : oracle (entry_input_path input_dir e) (entry_output_path output_dir e)
      · simp [process_directory_step, hme, hor, directory_attempts, List.filter_cons]
        omega
      · simp [process_directory_step, hme, hor, directory_attempts, List.filter_cons]
    · simp [process_directory_step, hme, directory_attempts]

/-- The batch fold's failure count, from any starting accumulator. -/
lemma process_directory_fold_failure (oracle : List String → List String → Bool)
    (input_dir output_dir : List String) (entries : List Entry) :
    ∀ acc, (entries.foldl (process_directory_step oracle input_dir output_dir) acc).1.2 =
      acc.1.2 + ((directory_attempts oracle input_dir output_dir entries).filter
        (fun a => !a.ok)).length := by
  induction entries with
  | nil => intro acc; simp [directory_attempts]
  | cons e rest ih =>
    intro acc
    rw [List.foldl_cons, ih]
    by_cases hme : entry_matches e
    · by_cases hor : oracle (entry_input_path input_dir e) (entry_output_path output_dir e)
      · simp [process_directory_step, hme, hor, directory_attempts, List.filter_cons]
      · simp [process_directory_step, hme, hor, directory_attempts, List.filter_cons]
        omega
    · simp [process_directory_step, hme, directory_attempts]

/-- A list's length splits into the lengths of a Boolean filter and its
complement. -/
lemma length_filter_bool {α : Type} (p : α → Bool) (l : List α) :
    (l.filter p).length + (l.filter (fun a => !p a)).length = l.length := by
  induction l with
  | nil => rfl
  | cons a t ih =>
    by_cases h : p a <;> simp [List.filter_cons, h] <;> omega

/-- C3: the batch run attempts exactly the regular files with supported
lowercased extensions, once each in traversal order (all other entries
are skipped and produce no attempt); each attempt's output path is the
input's relative path re-rooted under the output root with the extension
replaced by `.md`; and the returned tally counts every attempted file
exactly once, as a success or as a failure. -/
theorem C3_process_directory_inventory (oracle : List String → List String → Bool)
    (input_dir output_dir : List String) (entries : List Entry) :
    (process_directory_run oracle input_dir output_dir entries).2 =
      (entries.filter entry_matches).map (fun e =>
        ⟨entry_input_path input_dir e, entry_output_path output_dir e,
         oracle (entry_input_path input_dir e) (entry_output_path output_dir e)⟩) ∧
    (∀ e : Entry, entry_output_path output_dir e =
      output_dir ++ e.relDirs ++ [e.stem ++ ".md"]) ∧
    (process_directory oracle input_dir output_dir entries).1 =
      (((process_directory_run oracle input_dir output_dir entries).2).filter
        (fun a => a.ok)).length ∧
    (process_directory oracle input_dir output_dir entries).2 =
      (((process_directory_run oracle input_dir output_dir entries).2).filter
        (fun a => !a.ok)).length ∧
    (process_directory oracle input_dir output_dir entries).1 +
      (process_directory oracle input_dir output_dir entries).2 =
      (entries.filter entry_matches).length := by
  have htrace : (process_directory_run oracle input_dir output_dir entries).2 =
      directory_attempts oracle input_dir output_dir entries := by
    rw [process_directory_run, process_directory_fold_trace]
    rfl
  have hs : (process_directory oracle input_dir output_dir entries).1 =
      ((directory_attempts oracle input_dir output_dir entries).filter
        (fun a => a.ok)).length := by
    rw [process_directory, process_directory_run, process_directory_fold_success]
    simp
  have hf : (process_directory oracle input_dir output_dir entries).2 =
      ((directory_attempts oracle input_dir output_dir entries).filter
        (fun a => !a.ok)).length := by
    rw [process_directory, process_directory_run, process_directory_fold_failure]
    simp
  refine ⟨htrace, fun e => rfl, ?_, ?_, ?_⟩
  · rw [hs, htrace]
  · rw [hf, htrace]
  · rw [hs, hf, length_filter_bool, directory_attempts, List.length_map]

/-- C8: the CLI exits non-zero exactly in the stated cases. A falsy
effective credential exits 1. In single-file mode (a truthy `--file`): a
missing input exits 1, and otherwise the exit is 0 exactly when the
conversion succeeded. In batch mode (no truthy `--file`): a missing input
directory exits 1, and otherwise the exit code is decided from the
completed run's final tally — 1 exactly when at least one file failed, 0
otherwise — the run itself having attempted every matching entry (its
trace is the full closed-form attempt list). -/
theorem C8_cli_exit_codes (env_key : Option String) (path_exists : String → Bool)
    (single_convert_ok : String → Bool)
    (oracle : List String → List String → Bool) (entries : List Entry)
    (idp odp : List String) (args : Args) :
    (truthy (effective_key args env_key) = false →
      main env_key path_exists single_convert_ok oracle entries idp odp args = 1) ∧
    (∀ f, truthy (effective_key args env_key) = true → args.file = some f → f ≠ "" →
      (path_exists f = false →
        main env_key path_exists single_convert_ok oracle entries idp odp args = 1) ∧
      (path_exists f = true →
        (main env_key path_exists single_convert_ok oracle entries idp odp args = 0 ↔
          single_convert_ok f = true) ∧
        (main env_key path_exists single_convert_ok oracle entries idp odp args = 1 ↔
          single_convert_ok f = false))) ∧
    (truthy (effective_key args env_key) = true →
     (args.file = none ∨ args.file = some "") →
      (path_exists args.input = false →
        main env_key path_exists single_convert_ok oracle entries idp odp args = 1) ∧
      (path_exists args.input = true →
        main env_key path_exists single_convert_ok oracle entries idp odp args =
          (if 0 < (process_directory oracle idp odp entries).2 then 1 else 0) ∧
        (process_directory_run oracle idp odp entries).2 =
          directory_attempts oracle idp odp entries)) := by
  refine ⟨fun hk => ?_, fun f hk hf hne => ⟨fun hpe => ?_, fun hpe => ?_⟩,
    fun hk hf => ⟨fun hpe => ?_, fun hpe => ?_⟩⟩
  · simp [main, hk]
  · cases hc : single_convert_ok f <;>
      simp [main, hk, hf, hne, hpe, hc]
  · cases hc : single_convert_ok f <;>
      simp [main, hk, hf, hne, hpe, hc]
  · rcases hf with hf | hf <;> simp [main, hk, hf, hpe]
  · constructor
    · rcases hf with hf | hf <;>
        rcases hz : (process_directory oracle idp odp entries).2 with _ | n <;>
        simp [main, hk, hf, hpe, hz]
    · rw [process_directory_run, process_directory_fold_trace]
      rfl

/-- Witness for C8: with one matching entry whose conversion fails, the
batch run exits 1; a missing key exits 1; single-file success exits 0. -/
theorem C8_cli_exit_codes_witness :
    main none (fun _ => true) (fun _ => true) (fun _ _ => true) []
      ["input"] ["output"] ⟨"input", "output", none, none⟩ = 1 ∧
    main (some "k") (fun _ => true) (fun _ => true) (fun _ _ => true) []
      ["input"] ["output"] ⟨"input", "output", none, some "a.pdf"⟩ = 0 ∧
    main (some "k") (fun _ => true) (fun _ => true) (fun _ _ => false)
      [⟨[], "a", ".pdf", true⟩] ["input"] ["output"]
      ⟨"input", "output", none, none⟩ = 1 := by
  refine ⟨?_, ?_, ?_⟩
  · exact (C8_cli_exit_codes none (fun _ => true) (fun _ => true) (fun _ _ => true)
      [] ["input"] ["output"] ⟨"input", "output", none, none⟩).1 rfl
  · exact ((C8_cli_exit_codes (some "k") (fun _ => true) (fun _ => true)
      (fun _ _ => true) [] ["input"] ["output"]
      ⟨"input", "output", none, some "a.pdf"⟩).2.1 "a.pdf" rfl rfl
      (by decide)).2 rfl |>.1.mpr rfl
  · have h := ((C8_cli_exit_codes (some "k") (fun _ => true) (fun _ => true)
      (fun _ _ => false) [⟨[], "a", ".pdf", true⟩] ["input"] ["output"]
      ⟨"input", "output", none, none⟩).2.2 rfl (Or.inl rfl)).2 rfl
    rw [h.1]
    rfl

end DocMistral
